import Mathlib

/-!
Shallow embedding of `src/server.py` (the "tira" group-ordering Telegram bot).

The Python module keeps four module-level mutable values
(`session_active`, `orders`, `group_chat_id`, `admin_id`); these become the
`BotState` structure, threaded explicitly through the webhook handler.
Outbound `send_message` calls become a list of `Send` values; the external
delivery outcome (`requests.post` succeeding and returning an ok response)
is modelled by a `deliver` oracle mapping (target, text) to success.
Python strings are modelled by `String`, with the handful of `str` methods
the code uses (`strip`, `lower`, `splitlines`, `startswith`, `in`, slicing)
re-implemented character-wise below so that everything is executable and
kernel-reducible.  Python integers are `Int`; absent JSON fields are `none`.
-/

namespace TiraBot

/-- Model of Python `str.strip` on a character list: drop whitespace from
both ends. -/
def pyStrip (l : List Char) : List Char :=
  ((l.dropWhile Char.isWhitespace).reverse.dropWhile Char.isWhitespace).reverse

/-- Model of Python `str.strip` on strings (used on `message.get("text")`). -/
def pyStripStr (s : String) : String := (pyStrip s.data).asString

/-- Model of Python `str.lower` (identity on Hebrew; maps ASCII A-Z). -/
def pyLower (s : String) : String := (s.data.map Char.toLower).asString

/-- Model of Python substring membership `pat in l` on character lists. -/
def containsSub (pat : List Char) : List Char → Bool
  | [] => pat.isEmpty
  | c :: rest => pat.isPrefixOf (c :: rest) || containsSub pat rest

/-- Model of Python `x in t` for strings (substring test). -/
def strContains (t x : String) : Bool := containsSub x.data t.data

/-- Model of Python `s.startswith(pre)`. -/
def pyStartswith (s pre : String) : Bool := pre.data.isPrefixOf s.data

/-- Worker for `pySplitlines`: accumulates the current line (reversed). -/
def splitlinesAux : List Char → List Char → List String
  | [], acc => if acc.isEmpty then [] else [acc.reverse.asString]
  | '\r' :: '\n' :: rest, acc => acc.reverse.asString :: splitlinesAux rest []
  | '\r' :: rest, acc => acc.reverse.asString :: splitlinesAux rest []
  | '\n' :: rest, acc => acc.reverse.asString :: splitlinesAux rest []
  | c :: rest, acc => splitlinesAux rest (c :: acc)

/-- Model of Python `str.splitlines` (splits at `\r\n`, `\r`, `\n`; a
trailing line terminator produces no trailing empty piece). -/
def pySplitlines (s : String) : List String := splitlinesAux s.data []

/-- Model of Python `sep.join(ls)`. -/
def joinSep (sep : String) : List String → String
  | [] => ""
  | [x] => x
  | x :: y :: rest => x ++ sep ++ joinSep sep (y :: rest)

/-- Concatenation of a list of strings (used to state the chunking law). -/
def concatStrs : List String → String
  | [] => ""
  | s :: rest => s ++ concatStrs rest

/-- Model of Python f-string rendering of an optional integer
(`None` prints as `"None"`). -/
def pyShowOptInt : Option Int → String
  | none => "None"
  | some n => toString n

/-- Model of Python truthiness of an optional integer (`if admin_id:`). -/
def pyTruthyInt : Option Int → Bool
  | none => false
  | some n => n != 0

/-- Model of Python `a or dflt` where `a` is an optional string and both
`None` and `""` are falsy. -/
def pyOrStr (a : Option String) (dflt : String) : String :=
  match a with
  | some s => if s = "" then dflt else s
  | none => dflt

/-- A normalized inbound Telegram message (`data["message"]` /
`data["edited_message"]`): only the fields `webhook` reads. -/
structure Msg where
  chat_id : Option Int
  text : Option String
  user_id : Option Int
  username : Option String
  first_name : Option String
  message_id : Option Int
deriving Repr, DecidableEq

/-- A parsed webhook JSON body. -/
structure Payload where
  message : Option Msg
  edited_message : Option Msg
deriving Repr, DecidableEq

/-- One entry of the `orders` ledger
(`{user_id, username, text, category, message_id}`). -/
structure OrderRecord where
  user_id : Option Int
  username : String
  text : String
  category : String
  message_id : Option Int
deriving Repr, DecidableEq

/-- The module-level mutable session state of `server.py`. -/
structure BotState where
  session_active : Bool
  orders : List OrderRecord
  group_chat_id : Option Int
  admin_id : Option Int
deriving Repr, DecidableEq

/-- One outbound `send_message(chat_id, text, reply_to_message_id)` call. -/
structure Send where
  target : Option Int
  text : String
  reply_to_message_id : Option Int
deriving Repr, DecidableEq

/-- The HTTP response of the webhook endpoint: `{"ok": true}`, or the
`{"ok": false, "error": "no json"}` body with status 400. -/
inductive Resp where
  | ok : Resp
  | noJson : Resp
deriving Repr, DecidableEq

/-- `user.get("username") or user.get("first_name") or "משתמש"`. -/
def usernameOf (m : Msg) : String :=
  match m.username with
  | some s => if s = "" then pyOrStr m.first_name "משתמש" else s
  | none => pyOrStr m.first_name "משתמש"

/-- The fixed `CATEGORIES` list of `server.py`. -/
def CATEGORIES : List String :=
  ["חומוס", "שווארמה", "מאפיה", "מכולת", "בשר", "דגים", "משתלה", "ירקניה"]

/-- `normalize_text`: `t.replace("\r"," ").replace("\n"," ").strip().lower()`. -/
def normalize_text (t : String) : String :=
  pyLower (pyStripStr
    (((t.data.map fun c => if c = '\r' then ' ' else c).map
      fun c => if c = '\n' then ' ' else c).asString))

/-- Model of Python `any(x in t for x in kws)`. -/
def anyContains (t : String) (kws : List String) : Bool :=
  kws.any fun x => strContains t x

/-- `classify_text`: the first-match keyword rule chain of `server.py`,
falling through to `"מכולת"`. -/
def classify_text (text : String) : String :=
  let t := normalize_text text
  if anyContains t ["חומוס", "חומוסיה"] then "חומוס"
  else if anyContains t ["שווארמה", "שוואר", "shawarma"] then "שווארמה"
  else if anyContains t ["מאפיה", "מאפה", "לחם", "קרואסון", "בייגל"] then "מאפיה"
  else if anyContains t ["מכולת", "סופר", "סופרמרקט", "חלב", "סוכר", "קמח", "חמאה"] then "מכולת"
  else if anyContains t ["בשר", "קבב", "סטייק", "פרגית", "נתח"] then "בשר"
  else if anyContains t ["דג", "סלמון", "טונה", "פילה", "דגים"] then "דגים"
  else if anyContains t ["משתלה", "עציץ", "צמח", "שתיל"] then "משתלה"
  else if anyContains t ["ירק", "ירקניה", "שוק ירקות", "ירקות", "מלפפון", "מלפפונים", "חסה", "גזר"]
    then "ירקניה"
  else "מכולת"

/-- The eight keyword sets of `classify_text`, in rule order (used to state
the catch-all clause of the classifier contract). -/
def KEYWORD_SETS : List (List String) :=
  [["חומוס", "חומוסיה"],
   ["שווארמה", "שוואר", "shawarma"],
   ["מאפיה", "מאפה", "לחם", "קרואסון", "בייגל"],
   ["מכולת", "סופר", "סופרמרקט", "חלב", "סוכר", "קמח", "חמאה"],
   ["בשר", "קבב", "סטייק", "פרגית", "נתח"],
   ["דג", "סלמון", "טונה", "פילה", "דגים"],
   ["משתלה", "עציץ", "צמח", "שתיל"],
   ["ירק", "ירקניה", "שוק ירקות", "ירקות", "מלפפון", "מלפפונים", "חסה", "גזר"]]

/-- `build_summary_text`: group the ledger by category in `CATEGORIES`
order, render `- username: text` lines, fall back to the "no orders"
sentinel. -/
def build_summary_text (orders : List OrderRecord) : String :=
  let grouped := CATEGORIES.filterMap fun cat =>
    let items := (orders.filter fun o => o.category == cat).map
      fun o => "- " ++ o.username ++ ": " ++ o.text
    if items.isEmpty then none else some (cat ++ ":\n" ++ joinSep "\n" items)
  if grouped.isEmpty then "אין הזמנות כרגע."
  else "סיכום הזמנות:\n\n" ++ joinSep "\n\n" grouped

/-- Model of the slicing loop
`[s[i:i+k] for i in range(0, len(s), k)]` on character lists. -/
def pyChunks (k : Nat) : List Char → List (List Char)
  | [] => []
  | c :: rest => (c :: rest.take (k - 1)) :: pyChunks k (rest.drop (k - 1))
termination_by l => l.length
decreasing_by simp [List.length_drop]; omega

/-- The chunk texts `summary[i:i+max_chunk]` of the `/summary` branch. -/
def pyChunksStr (k : Nat) (s : String) : List String :=
  (pyChunks k s.data).map List.asString

/-- The private-send loop of the `/summary` branch: send each chunk,
stop at the first delivery failure (`if not resp: ... break`).  Returns the
attempted sends and the final `sent_privately` flag. -/
def sendLoop (deliver : Option Int → String → Bool) (target : Option Int) :
    List String → List Send × Bool
  | [] => ([], true)
  | c :: rest =>
    if deliver target c then
      let r := sendLoop deliver target rest
      (⟨target, c, none⟩ :: r.1, r.2)
    else ([⟨target, c, none⟩], false)

/-- The `/start` branch of `webhook` (lines 114-130 of `server.py`). -/
def handleStart (st : BotState) (chat_id user_id : Option Int) :
    BotState × List Send :=
  let st1 := if st.group_chat_id = none then
    { st with group_chat_id := chat_id } else st
  if chat_id ≠ st1.group_chat_id then
    (st1, [⟨chat_id, "פקודה זו מותרת רק בקבוצה הראשית.", none⟩])
  else
    let st2 := { st1 with session_active := true, orders := [] }
    if st2.admin_id = none then
      ({ st2 with admin_id := user_id },
       [⟨user_id, "אתה הוגדרת כמנהל הזמנות (id=" ++ pyShowOptInt user_id ++ ").", none⟩,
        ⟨st2.group_chat_id, "מישהו משהו מטירה?", none⟩])
    else
      (st2, [⟨st2.group_chat_id, "מישהו משהו מטירה?", none⟩])

/-- The `/summary` branch of `webhook` (lines 133-160 of `server.py`). -/
def handleSummary (deliver : Option Int → String → Bool) (st : BotState)
    (chat_id user_id : Option Int) : BotState × List Send :=
  if st.admin_id = none ∨ user_id ≠ st.admin_id then
    (st, [⟨chat_id, "אינך מורשה לבקש סיכום.", none⟩])
  else
    let summary := build_summary_text st.orders
    let chunks := pyChunksStr 3500 summary
    let priv := if pyTruthyInt st.admin_id then
      sendLoop deliver st.admin_id chunks else ([], false)
    if priv.2 = false then
      (st, priv.1 ++ chunks.map (fun c => ⟨chat_id, c, none⟩) ++
        [⟨chat_id, "הערה: לא הצלחתי לשלוח הודעה פרטית — שולח את הסיכום כאן בקבוצה במקום.", none⟩])
    else
      (st, priv.1 ++ [⟨chat_id, "הסיכום נשלח אליך בפרטי.", none⟩])

/-- The `/reset` branch of `webhook` (lines 163-170 of `server.py`). -/
def handleReset (st : BotState) (chat_id user_id : Option Int) :
    BotState × List Send :=
  if st.admin_id = none ∨ user_id ≠ st.admin_id then
    (st, [⟨chat_id, "אינך מורשה לבצע איפוס.", none⟩])
  else
    ({ st with orders := [], session_active := false },
     [⟨chat_id, "מאגר ההזמנות אופס.", none⟩])

/-- The ordinary-text branch of `webhook` (lines 173-197 of `server.py`):
only while the session is active and the chat matches, split into trimmed
non-empty lines, classify each line, append one `OrderRecord` per line and
reply with the newline-joined category labels. -/
def handleText (st : BotState) (chat_id user_id : Option Int)
    (username : String) (message_id : Option Int) (text : String) :
    BotState × List Send :=
  if st.session_active = true ∧ chat_id = st.group_chat_id then
    if text = "" ∨ pyStartswith text "/" then (st, [])
    else
      let lines := ((pySplitlines text).map
        fun ln => (pyStrip ln.data).asString).filter fun ln => ln != ""
      if lines.isEmpty then (st, [])
      else
        let recs := lines.map fun line =>
          OrderRecord.mk user_id username line (classify_text line) message_id
        let cats := lines.map fun line => classify_text line
        let reply := if cats.length > 1 then joinSep "\n" cats else cats.headD ""
        ({ st with orders := st.orders ++ recs },
         [⟨chat_id, reply, message_id⟩])
  else (st, [])

/-- `data.get("message") or data.get("edited_message")`. -/
def firstMsg (d : Payload) : Option Msg :=
  match d.message with
  | some m => some m
  | none => d.edited_message

/-- Dispatch on one inbound message: extract fields, strip the text, and
run the first matching command branch (otherwise the ordinary-text branch). -/
def handleMessage (deliver : Option Int → String → Bool) (st : BotState)
    (m : Msg) : BotState × List Send :=
  let chat_id := m.chat_id
  let text := pyStripStr (m.text.getD "")
  let user_id := m.user_id
  let username := usernameOf m
  if pyStartswith text "/start" then handleStart st chat_id user_id
  else if pyStartswith text "/summary" then handleSummary deliver st chat_id user_id
  else if pyStartswith text "/reset" then handleReset st chat_id user_id
  else handleText st chat_id user_id username m.message_id text

/-- The message extracted from an optional webhook body, if any. -/
def eventMsg : Option Payload → Option Msg
  | none => none
  | some d => firstMsg d

/-- The `/webhook` POST endpoint: `none` models a missing or unparseable
JSON body (`request.get_json` returning a falsy value). -/
def webhook (deliver : Option Int → String → Bool) (st : BotState)
    (body : Option Payload) : BotState × List Send × Resp :=
  match body with
  | none => (st, [], Resp.noJson)
  | some d =>
    match firstMsg d with
    | none => (st, [], Resp.ok)
    | some m =>
      let r := handleMessage deliver st m
      (r.1, r.2, Resp.ok)

/-! ### Helper lemmas -/

theorem cmdDisjoint {t p q : String} (hqp : ¬ (q.data <+: p.data))
    (hpq : ¬ (p.data <+: q.data)) (hp : pyStartswith t p = true) :
    pyStartswith t q = false := by
  unfold pyStartswith at *
  by_contra hq
  rw [Bool.not_eq_false, List.isPrefixOf_iff_prefix] at hq
  rw [ List.isPrefixOf_iff_prefix] at hp
  rcases List.prefix_or_prefix_of_prefix hp hq with h | h
  · exact hpq h
  · exact hqp h

theorem summary_not_start {t : String} (h : pyStartswith t "/summary" = true) :
    pyStartswith t "/start" = false :=
  cmdDisjoint (by decide) (by decide) h

theorem reset_not_start {t : String} (h : pyStartswith t "/reset" = true) :
    pyStartswith t "/start" = false :=
  cmdDisjoint (by decide) (by decide) h

theorem reset_not_summary {t : String} (h : pyStartswith t "/reset" = true) :
    pyStartswith t "/summary" = false :=
  cmdDisjoint (by decide) (by decide) h

theorem handleSummary_fst (deliver : Option Int → String → Bool)
    (st : BotState) (chat_id user_id : Option Int) :
    (handleSummary deliver st chat_id user_id).1 = st := by
  rw [handleSummary]
  dsimp only
  split_ifs <;> rfl

theorem handleStart_orders (st : BotState) (chat_id user_id : Option Int) :
    (handleStart st chat_id user_id).1.orders = st.orders ∨
    (handleStart st chat_id user_id).1.orders = [] := by
  rw [handleStart]
  dsimp only
  split_ifs <;> simp

theorem handleReset_orders (st : BotState) (chat_id user_id : Option Int) :
    (handleReset st chat_id user_id).1.orders = st.orders ∨
    (handleReset st chat_id user_id).1.orders = [] := by
  rw [handleReset]
  split_ifs <;> simp

theorem handleText_gate (st : BotState) (chat_id user_id : Option Int)
    (username : String) (message_id : Option Int) (text : String)
    (h : ¬ (st.session_active = true ∧ chat_id = st.group_chat_id)) :
    handleText st chat_id user_id username message_id text = (st, []) := by
  rw [handleText, if_neg h]

theorem asString_append (a b : List Char) :
    a.asString ++ b.asString = (a ++ b).asString := rfl

theorem concatStrs_map_asString (ls : List (List Char)) :
    concatStrs (ls.map List.asString) = ls.flatten.asString := by
  induction ls with
  | nil => rfl
  | cons x xs ih =>
    simp only [List.map_cons, concatStrs, ih, List.flatten_cons, asString_append]

theorem pyChunks_flatten (k : Nat) (l : List Char) :
    (pyChunks k l).flatten = l := by
  induction l using pyChunks.induct k with
  | case1 => rw [pyChunks]; rfl
  | case2 c rest ih =>
    rw [pyChunks]
    simp only [List.flatten_cons, ih, List.cons_append, List.take_append_drop]

theorem pyChunks_mem_length {k : Nat} (hk : 1 ≤ k) (l : List Char) :
    ∀ c ∈ pyChunks k l, c.length ≤ k := by
  induction l using pyChunks.induct k with
  | case1 => intro x hx; rw [pyChunks] at hx; simp at hx
  | case2 c rest ih =>
    intro x hx
    rw [pyChunks] at hx
    rcases List.mem_cons.mp hx with hx | hx
    · subst hx
      simp only [List.length_cons, List.length_take]
      omega
    · exact ih x hx

theorem pyChunksStr_concat (k : Nat) (s : String) :
    concatStrs (pyChunksStr k s) = s := by
  rw [pyChunksStr, concatStrs_map_asString, pyChunks_flatten]
  rfl

theorem pyChunksStr_mem_length {k : Nat} (hk : 1 ≤ k) (s : String) :
    ∀ c ∈ pyChunksStr k s, c.length ≤ k := by
  intro c hc
  rw [pyChunksStr] at hc
  rcases List.mem_map.mp hc with ⟨l, hl, rfl⟩
  exact pyChunks_mem_length hk s.data l hl

theorem sendLoop_all_ok {deliver : Option Int → String → Bool}
    (hdel : ∀ t c, deliver t c = true) (target : Option Int)
    (cs : List String) :
    sendLoop deliver target cs = (cs.map fun c => ⟨target, c, none⟩, true) := by
  induction cs with
  | nil => rfl
  | cons c rest ih => simp [sendLoop, hdel, ih]

theorem webhook_msg (deliver : Option Int → String → Bool) (st : BotState)
    (d : Payload) (m : Msg) (hm : firstMsg d = some m) :
    webhook deliver st (some d) =
      ((handleMessage deliver st m).1, (handleMessage deliver st m).2, Resp.ok) := by
  unfold webhook
  dsimp only
  rw [hm]

theorem handleMessage_start (deliver : Option Int → String → Bool)
    (st : BotState) (m : Msg)
    (hc : pyStartswith (pyStripStr (m.text.getD "")) "/start" = true) :
    handleMessage deliver st m = handleStart st m.chat_id m.user_id := by
  rw [handleMessage, if_pos hc]

theorem handleMessage_summary (deliver : Option Int → String → Bool)
    (st : BotState) (m : Msg)
    (hc : pyStartswith (pyStripStr (m.text.getD "")) "/summary" = true) :
    handleMessage deliver st m = handleSummary deliver st m.chat_id m.user_id := by
  rw [handleMessage, if_neg, if_pos hc]
  simp [summary_not_start hc]

theorem handleMessage_reset (deliver : Option Int → String → Bool)
    (st : BotState) (m : Msg)
    (hc : pyStartswith (pyStripStr (m.text.getD "")) "/reset" = true) :
    handleMessage deliver st m = handleReset st m.chat_id m.user_id := by
  rw [handleMessage, if_neg, if_neg, if_pos hc]
  · simp [reset_not_summary hc]
  · simp [reset_not_start hc]

theorem handleMessage_plain (deliver : Option Int → String → Bool)
    (st : BotState) (m : Msg)
    (h1 : pyStartswith (pyStripStr (m.text.getD "")) "/start" = false)
    (h2 : pyStartswith (pyStripStr (m.text.getD "")) "/summary" = false)
    (h3 : pyStartswith (pyStripStr (m.text.getD "")) "/reset" = false) :
    handleMessage deliver st m =
      handleText st m.chat_id m.user_id (usernameOf m) m.message_id
        (pyStripStr (m.text.getD "")) := by
  rw [handleMessage, if_neg, if_neg, if_neg] <;> simp [h1, h2, h3]

theorem reset_step (deliver : Option Int → String → Bool) (st : BotState)
    (a : Int) (chat mid : Option Int) (un fn : Option String)
    (ha : st.admin_id = some a) :
    webhook deliver st (some ⟨some ⟨chat, some "/reset", some a, un, fn, mid⟩, none⟩) =
      ({ st with orders := [], session_active := false },
       [⟨chat, "מאגר ההזמנות אופס.", none⟩], Resp.ok) := by
  rw [webhook_msg deliver st ⟨some ⟨chat, some "/reset", some a, un, fn, mid⟩, none⟩
    ⟨chat, some "/reset", some a, un, fn, mid⟩ rfl]
  rw [handleMessage_reset deliver st ⟨chat, some "/reset", some a, un, fn, mid⟩
    (by dsimp only; decide)]
  rw [handleReset, if_neg (by simp [ha])]

/-! ### Claim theorems -/

/-- C2: for every input string, `classify_text` returns one of the eight
strings of the fixed `CATEGORIES` list, and when none of the eight keyword
sets matches the normalized text it returns the catch-all category
`"מכולת"`; as a Lean function it is total by construction, so it never
fails visibly to the caller. -/
theorem classify_text_total_closed (s : String) :
    classify_text s ∈ CATEGORIES ∧
    ((∀ kws ∈ KEYWORD_SETS, anyContains (normalize_text s) kws = false) →
      classify_text s = "מכולת") := by
  constructor
  · simp only [classify_text]
    repeat' split
    all_goals decide
  · intro h
    have h1 := h ["חומוס", "חומוסיה"] (by decide)
    have h2 := h ["שווארמה", "שוואר", "shawarma"] (by decide)
    have h3 := h ["מאפיה", "מאפה", "לחם", "קרואסון", "בייגל"] (by decide)
    have h4 := h ["מכולת", "סופר", "סופרמרקט", "חלב", "סוכר", "קמח", "חמאה"] (by decide)
    have h5 := h ["בשר", "קבב", "סטייק", "פרגית", "נתח"] (by decide)
    have h6 := h ["דג", "סלמון", "טונה", "פילה", "דגים"] (by decide)
    have h7 := h ["משתלה", "עציץ", "צמח", "שתיל"] (by decide)
    have h8 := h ["ירק", "ירקניה", "שוק ירקות", "ירקות", "מלפפון", "מלפפונים", "חסה", "גזר"]
      (by decide)
    simp [classify_text, h1, h2, h3, h4, h5, h6, h7, h8]

/-- Witness for C2: the line `"עוף"` matches no keyword set, and
`classify_text` maps it to the catch-all category inside `CATEGORIES`. -/
theorem classify_text_total_closed_witness :
    classify_text "עוף" ∈ CATEGORIES ∧ classify_text "עוף" = "מכולת" :=
  ⟨(classify_text_total_closed "עוף").1,
   (classify_text_total_closed "עוף").2 (by decide)⟩

/-- C8: a webhook request with a missing or unparseable JSON body is
recovered locally: the handler returns the fixed "no json" error response
(no exception is modelled, the function is total), sends nothing, and
leaves the session state and the ledger untouched. -/
theorem no_body_is_noop (deliver : Option Int → String → Bool)
    (st : BotState) : webhook deliver st none = (st, [], Resp.noJson) := rfl

/-- C1: an inbound `/summary` or `/reset` command whose sender differs from
the bound coordinator (`admin_id`) leaves the whole session state — active
flag, bound conversation id, bound coordinator id — and the order ledger
unchanged, and the only message sent back is the fixed rejection notice
(which mentions no ledger contents). -/
theorem unauthorized_summary_reset_is_pure_rejection
    (deliver : Option Int → String → Bool) (st : BotState)
    (d : Payload) (m : Msg) (a : Int)
    (hm : firstMsg d = some m) (ha : st.admin_id = some a)
    (hu : m.user_id ≠ some a)
    (hcmd : pyStartswith (pyStripStr (m.text.getD "")) "/summary" = true ∨
            pyStartswith (pyStripStr (m.text.getD "")) "/reset" = true) :
    (webhook deliver st (some d)).1 = st ∧
    ((webhook deliver st (some d)).2.1 =
        [⟨m.chat_id, "אינך מורשה לבקש סיכום.", none⟩] ∨
     (webhook deliver st (some d)).2.1 =
        [⟨m.chat_id, "אינך מורשה לבצע איפוס.", none⟩]) := by
  have hcond : st.admin_id = none ∨ m.user_id ≠ st.admin_id :=
    Or.inr (by rw [ha]; exact hu)
  rw [webhook_msg deliver st d m hm]
  rcases hcmd with hc | hc
  · rw [handleMessage_summary deliver st m hc]
    refine ⟨handleSummary_fst deliver st m.chat_id m.user_id, Or.inl ?_⟩
    rw [handleSummary, if_pos hcond]
  · rw [handleMessage_reset deliver st m hc]
    rw [handleReset, if_pos hcond]
    exact ⟨rfl, Or.inr rfl⟩

/-- Witness for C1: a `/summary` request by user 7 while user 5 is the
bound coordinator is answered only by the rejection notice and mutates
nothing. -/
theorem unauthorized_summary_reset_is_pure_rejection_witness :
    (webhook (fun _ _ => true)
      ⟨true, [⟨some 9, "u", "חומוס", "חומוס", some 1⟩], some 1, some 5⟩
      (some ⟨some ⟨some 1, some "/summary", some 7, none, none, none⟩, none⟩)).1 =
      ⟨true, [⟨some 9, "u", "חומוס", "חומוס", some 1⟩], some 1, some 5⟩ ∧
    ((webhook (fun _ _ => true)
      ⟨true, [⟨some 9, "u", "חומוס", "חומוס", some 1⟩], some 1, some 5⟩
      (some ⟨some ⟨some 1, some "/summary", some 7, none, none, none⟩, none⟩)).2.1 =
        [⟨some 1, "אינך מורשה לבקש סיכום.", none⟩] ∨
     (webhook (fun _ _ => true)
      ⟨true, [⟨some 9, "u", "חומוס", "חומוס", some 1⟩], some 1, some 5⟩
      (some ⟨some ⟨some 1, some "/summary", some 7, none, none, none⟩, none⟩)).2.1 =
        [⟨some 1, "אינך מורשה לבצע איפוס.", none⟩]) :=
  unauthorized_summary_reset_is_pure_rejection (fun _ _ => true)
    ⟨true, [⟨some 9, "u", "חומוס", "חומוס", some 1⟩], some 1, some 5⟩
    ⟨some ⟨some 1, some "/summary", some 7, none, none, none⟩, none⟩
    ⟨some 1, some "/summary", some 7, none, none, none⟩ 5
    rfl rfl (by decide) (Or.inl (by decide))

/-- C3: whenever the inbound event's conversation id differs from the bound
conversation id, or the session is idle, handling the event never produces
an `OrderRecord`: the ledger afterwards is either exactly the old ledger or
empty (a command may clear it, but nothing is ever appended). -/
theorem no_order_from_foreign_chat_or_idle
    (deliver : Option Int → String → Bool) (st : BotState)
    (body : Option Payload)
    (h : ∀ m, eventMsg body = some m →
      (m.chat_id ≠ st.group_chat_id ∨ st.session_active = false)) :
    (webhook deliver st body).1.orders = st.orders ∨
    (webhook deliver st body).1.orders = [] := by
  match body with
  | none => exact Or.inl rfl
  | some d =>
    cases hm : firstMsg d with
    | none =>
      unfold webhook
      dsimp only
      rw [hm]
      exact Or.inl rfl
    | some m =>
      have hd := h m (by simpa [eventMsg] using hm)
      rw [webhook_msg deliver st d m hm]
      dsimp only
      rw [handleMessage]
      split_ifs with hA hB hC
      · exact handleStart_orders st m.chat_id m.user_id
      · rw [handleSummary_fst]
        exact Or.inl rfl
      · exact handleReset_orders st m.chat_id m.user_id
      · rw [handleText_gate]
        · exact Or.inl rfl
        · rintro ⟨hact, hchat⟩
          rcases hd with hd | hd
          · exact hd hchat
          · rw [hact] at hd
            simp at hd

/-- Witness for C3: a grocery line posted in chat 2 while the session is
bound to chat 1 and collecting leaves the one-record ledger unchanged. -/
theorem no_order_from_foreign_chat_or_idle_witness :
    (webhook (fun _ _ => true)
      ⟨true, [⟨some 2, "u", "חלב", "מכולת", some 3⟩], some 1, some 5⟩
      (some ⟨some ⟨some 2, some "שניצל", some 4, none, none, none⟩, none⟩)).1.orders =
      [⟨some 2, "u", "חלב", "מכולת", some 3⟩] ∨
    (webhook (fun _ _ => true)
      ⟨true, [⟨some 2, "u", "חלב", "מכולת", some 3⟩], some 1, some 5⟩
      (some ⟨some ⟨some 2, some "שניצל", some 4, none, none, none⟩, none⟩)).1.orders =
      [] :=
  no_order_from_foreign_chat_or_idle (fun _ _ => true)
    ⟨true, [⟨some 2, "u", "חלב", "מכולת", some 3⟩], some 1, some 5⟩
    (some ⟨some ⟨some 2, some "שניצל", some 4, none, none, none⟩, none⟩)
    (by
      intro m hm
      cases Option.some.inj hm
      exact Or.inl (by decide))

/-- C4, counterexample: the two-line event `"חלב\nעוף"` submitted in the
bound conversation while collecting appends two records whose categories
are both the grocery category `"מכולת"` — the second line `"עוף"` is NOT
classified as the meat category `"בשר"` (it matches no keyword rule), and
the reply is not the claimed `"מכולת\nבשר"`. -/
theorem milk_chicken_meat_counterexample :
    ((webhook (fun _ _ => true) ⟨true, [], some 1, some 9⟩
        (some ⟨some ⟨some 1, some "חלב\nעוף", some 2, some "dana", none, some 7⟩,
          none⟩)).1.orders.map (fun r => r.category) = ["מכולת", "מכולת"]) ∧
    ((webhook (fun _ _ => true) ⟨true, [], some 1, some 9⟩
        (some ⟨some ⟨some 1, some "חלב\nעוף", some 2, some "dana", none, some 7⟩,
          none⟩)).1.orders.map (fun r => r.category) ≠ ["מכולת", "בשר"]) ∧
    ((webhook (fun _ _ => true) ⟨true, [], some 1, some 9⟩
        (some ⟨some ⟨some 1, some "חלב\nעוף", some 2, some "dana", none, some 7⟩,
          none⟩)).2.1 ≠ [⟨some 1, "מכולת\nבשר", some 7⟩]) := by
  refine ⟨by decide, by decide, by decide⟩

/-- C4, amended: the event `"חלב\nעוף"` submitted in the bound conversation
while collecting appends exactly two `OrderRecord`s, both classified as the
grocery category `"מכולת"` (the second line matches no keyword rule and
falls to the catch-all), and the reply is the two category labels
newline-joined in input order, `"מכולת\nמכולת"`. -/
theorem milk_chicken_fanout_both_grocery (deliver : Option Int → String → Bool)
    (st : BotState) (c : Int) (u : Option Int) (un : String)
    (fn : Option String) (mid : Option Int)
    (hact : st.session_active = true) (hg : st.group_chat_id = some c)
    (hun : un ≠ "") :
    webhook deliver st (some ⟨some ⟨some c, some "חלב\nעוף", u, some un, fn, mid⟩, none⟩) =
      ({ st with orders := st.orders ++
          [⟨u, un, "חלב", "מכולת", mid⟩, ⟨u, un, "עוף", "מכולת", mid⟩] },
       [⟨some c, "מכולת\nמכולת", mid⟩], Resp.ok) := by
  rw [webhook_msg deliver st ⟨some ⟨some c, some "חלב\nעוף", u, some un, fn, mid⟩, none⟩
    ⟨some c, some "חלב\nעוף", u, some un, fn, mid⟩ rfl]
  rw [handleMessage_plain deliver st ⟨some c, some "חלב\nעוף", u, some un, fn, mid⟩
    (by dsimp only; decide) (by dsimp only; decide) (by dsimp only; decide)]
  have eu : usernameOf ⟨some c, some "חלב\nעוף", u, some un, fn, mid⟩ = un := by
    rw [usernameOf]
    simp [hun]
  rw [eu]
  rw [handleText]
  dsimp only
  rw [if_pos ⟨hact, by rw [hg]⟩, if_neg (by decide)]
  have e1 : ((pySplitlines (pyStripStr ((some "חלב\nעוף" : Option String).getD ""))).map
      fun ln => (pyStrip ln.data).asString).filter (fun ln => ln != "") = ["חלב", "עוף"] := by
    decide
  rw [e1]
  have e2 : classify_text "חלב" = "מכולת" := by decide
  have e3 : classify_text "עוף" = "מכולת" := by decide
  have e4 : joinSep "\n" ["מכולת", "מכולת"] = "מכולת\nמכולת" := by decide
  simp [e2, e3, e4]

/-- Witness for the amended C4: the concrete run from an empty ledger. -/
theorem milk_chicken_fanout_both_grocery_witness :
    webhook (fun _ _ => true) ⟨true, [], some 1, some 9⟩
      (some ⟨some ⟨some 1, some "חלב\nעוף", some 2, some "dana", none, some 7⟩, none⟩) =
      (⟨true, [⟨some 2, "dana", "חלב", "מכולת", some 7⟩,
               ⟨some 2, "dana", "עוף", "מכולת", some 7⟩], some 1, some 9⟩,
       [⟨some 1, "מכולת\nמכולת", some 7⟩], Resp.ok) :=
  milk_chicken_fanout_both_grocery (fun _ _ => true) ⟨true, [], some 1, some 9⟩
    1 (some 2) "dana" none (some 7) rfl rfl (by decide)

/-- C5: `build_summary_text` reads the ledger only through its per-category
record sequences, taken in the fixed `CATEGORIES` order (so the output is
independent of how records of different categories interleave on arrival);
and on the concrete ledgers with categories A,B,A and B,A,A
(A = `"חומוס"` declared before B = `"בשר"`) it renders A's header with both
A-records (in append order) before B's header with B's record last,
omitting the six empty categories. -/
theorem summary_grouping_fixed_order :
    (∀ orders1 orders2 : List OrderRecord,
      (∀ cat ∈ CATEGORIES, orders1.filter (fun o => o.category == cat) =
        orders2.filter (fun o => o.category == cat)) →
      build_summary_text orders1 = build_summary_text orders2) ∧
    build_summary_text
      [⟨some 1, "u1", "t1", "חומוס", none⟩,
       ⟨some 2, "u2", "t2", "בשר", none⟩,
       ⟨some 3, "u3", "t3", "חומוס", none⟩] =
      "סיכום הזמנות:\n\nחומוס:\n- u1: t1\n- u3: t3\n\nבשר:\n- u2: t2" ∧
    build_summary_text
      [⟨some 2, "u2", "t2", "בשר", none⟩,
       ⟨some 1, "u1", "t1", "חומוס", none⟩,
       ⟨some 3, "u3", "t3", "חומוס", none⟩] =
      "סיכום הזמנות:\n\nחומוס:\n- u1: t1\n- u3: t3\n\nבשר:\n- u2: t2" := by
  refine ⟨?_, by decide, by decide⟩
  intro o1 o2 h
  rw [build_summary_text, build_summary_text]
  dsimp only
  have e : (CATEGORIES.filterMap fun cat =>
      let items := (o1.filter fun o => o.category == cat).map
        fun o => "- " ++ o.username ++ ": " ++ o.text
      if items.isEmpty then none else some (cat ++ ":\n" ++ joinSep "\n" items)) =
    CATEGORIES.filterMap fun cat =>
      let items := (o2.filter fun o => o.category == cat).map
        fun o => "- " ++ o.username ++ ": " ++ o.text
      if items.isEmpty then none else some (cat ++ ":\n" ++ joinSep "\n" items) :=
    List.filterMap_congr fun cat hc => by simp only [h cat hc]
  rw [e]

/-- Witness for C5: two arrival orders with the same per-category record
sequences produce the same summary. -/
theorem summary_grouping_fixed_order_witness :
    build_summary_text
      [⟨some 1, "u1", "t1", "חומוס", none⟩,
       ⟨some 2, "u2", "t2", "בשר", none⟩,
       ⟨some 3, "u3", "t3", "חומוס", none⟩] =
    build_summary_text
      [⟨some 2, "u2", "t2", "בשר", none⟩,
       ⟨some 1, "u1", "t1", "חומוס", none⟩,
       ⟨some 3, "u3", "t3", "חומוס", none⟩] :=
  summary_grouping_fixed_order.1
    [⟨some 1, "u1", "t1", "חומוס", none⟩,
     ⟨some 2, "u2", "t2", "בשר", none⟩,
     ⟨some 3, "u3", "t3", "חומוס", none⟩]
    [⟨some 2, "u2", "t2", "בשר", none⟩,
     ⟨some 1, "u1", "t1", "חומוס", none⟩,
     ⟨some 3, "u3", "t3", "חומוס", none⟩]
    (by decide)

/-- C6: when the bound coordinator requests `/summary` and every delivery
succeeds, the messages sent privately are exactly the contiguous slices
`summary[i:i+3500]` of the generated summary, each of length at most 3500
characters, and their concatenation in send order is exactly the summary
string. -/
theorem summary_chunks_reassemble (deliver : Option Int → String → Bool)
    (st : BotState) (d : Payload) (m : Msg) (a : Int)
    (hm : firstMsg d = some m) (ha : st.admin_id = some a) (ha0 : a ≠ 0)
    (hu : m.user_id = some a)
    (ht : pyStartswith (pyStripStr (m.text.getD "")) "/summary" = true)
    (hdel : ∀ t c, deliver t c = true) :
    (webhook deliver st (some d)).2.1 =
      (pyChunksStr 3500 (build_summary_text st.orders)).map
        (fun c => Send.mk (some a) c none) ++
      [Send.mk m.chat_id "הסיכום נשלח אליך בפרטי." none] ∧
    concatStrs (pyChunksStr 3500 (build_summary_text st.orders)) =
      build_summary_text st.orders ∧
    ∀ c ∈ pyChunksStr 3500 (build_summary_text st.orders), c.length ≤ 3500 := by
  refine ⟨?_, pyChunksStr_concat 3500 _, pyChunksStr_mem_length (by omega) _⟩
  have hcond : ¬ (st.admin_id = none ∨ m.user_id ≠ st.admin_id) := by
    simp [ha, hu]
  have htruthy : pyTruthyInt st.admin_id = true := by
    simp [ha, pyTruthyInt, ha0]
  rw [webhook_msg deliver st d m hm]
  dsimp only
  rw [handleMessage_summary deliver st m ht]
  rw [handleSummary, if_neg hcond]
  dsimp only
  rw [if_pos htruthy, sendLoop_all_ok hdel]
  simp [ha]

/-- Witness for C6: coordinator 5 requests `/summary` over an empty ledger. -/
theorem summary_chunks_reassemble_witness :
    (webhook (fun _ _ => true) ⟨false, [], some 1, some 5⟩
      (some ⟨some ⟨some 1, some "/summary", some 5, none, none, none⟩, none⟩)).2.1 =
      (pyChunksStr 3500 (build_summary_text [])).map
        (fun c => Send.mk (some 5) c none) ++
      [Send.mk (some 1) "הסיכום נשלח אליך בפרטי." none] ∧
    concatStrs (pyChunksStr 3500 (build_summary_text [])) =
      build_summary_text [] ∧
    ∀ c ∈ pyChunksStr 3500 (build_summary_text []), c.length ≤ 3500 :=
  summary_chunks_reassemble (fun _ _ => true) ⟨false, [], some 1, some 5⟩
    ⟨some ⟨some 1, some "/summary", some 5, none, none, none⟩, none⟩
    ⟨some 1, some "/summary", some 5, none, none, none⟩ 5
    rfl rfl (by decide) rfl (by decide) (fun _ _ => rfl)

/-- C7: two consecutive `/reset` commands by the bound coordinator both
succeed: each run returns the success notice, empties the ledger and sets
the session idle, and the second run's resulting state, sends and response
are identical to the first's. -/
theorem reset_twice_idempotent (deliver : Option Int → String → Bool)
    (st : BotState) (a : Int) (chat mid : Option Int) (un fn : Option String)
    (ha : st.admin_id = some a) :
    webhook deliver st (some ⟨some ⟨chat, some "/reset", some a, un, fn, mid⟩, none⟩) =
      ({ st with orders := [], session_active := false },
       [⟨chat, "מאגר ההזמנות אופס.", none⟩], Resp.ok) ∧
    webhook deliver { st with orders := [], session_active := false }
        (some ⟨some ⟨chat, some "/reset", some a, un, fn, mid⟩, none⟩) =
      ({ st with orders := [], session_active := false },
       [⟨chat, "מאגר ההזמנות אופס.", none⟩], Resp.ok) :=
  ⟨reset_step deliver st a chat mid un fn ha,
   reset_step deliver { st with orders := [], session_active := false }
     a chat mid un fn ha⟩

/-- Witness for C7: coordinator 5 resets twice from a collecting session
with one record. -/
theorem reset_twice_idempotent_witness :
    webhook (fun _ _ => true)
      ⟨true, [⟨some 2, "u", "חלב", "מכולת", some 3⟩], some 1, some 5⟩
      (some ⟨some ⟨some 1, some "/reset", some 5, none, none, none⟩, none⟩) =
      (⟨false, [], some 1, some 5⟩,
       [⟨some 1, "מאגר ההזמנות אופס.", none⟩], Resp.ok) ∧
    webhook (fun _ _ => true) ⟨false, [], some 1, some 5⟩
      (some ⟨some ⟨some 1, some "/reset", some 5, none, none, none⟩, none⟩) =
      (⟨false, [], some 1, some 5⟩,
       [⟨some 1, "מאגר ההזמנות אופס.", none⟩], Resp.ok) :=
  reset_twice_idempotent (fun _ _ => true)
    ⟨true, [⟨some 2, "u", "חלב", "מכולת", some 3⟩], some 1, some 5⟩
    5 (some 1) none none none rfl

/-- C9: a `/start` issued in the already-bound conversation succeeds for
ANY sender identity — even one different from the bound coordinator: it
sets the session active, empties the ledger (discarding all accumulated
records), leaves the bound conversation and coordinator ids unchanged, and
broadcasts the session prompt to the bound conversation. -/
theorem start_in_bound_chat_any_sender (deliver : Option Int → String → Bool)
    (st : BotState) (g a : Int) (u : Option Int) (un fn : Option String)
    (mid : Option Int)
    (hg : st.group_chat_id = some g) (ha : st.admin_id = some a) :
    webhook deliver st (some ⟨some ⟨some g, some "/start", u, un, fn, mid⟩, none⟩) =
      ({ st with session_active := true, orders := [] },
       [⟨some g, "מישהו משהו מטירה?", none⟩], Resp.ok) := by
  rw [webhook_msg deliver st ⟨some ⟨some g, some "/start", u, un, fn, mid⟩, none⟩
    ⟨some g, some "/start", u, un, fn, mid⟩ rfl]
  rw [handleMessage_start deliver st ⟨some g, some "/start", u, un, fn, mid⟩
    (by dsimp only; decide)]
  rw [handleStart]
  simp [hg, ha]

/-- Witness for C9: non-coordinator 7 starts in the bound chat 1 and wipes
the existing record while coordinator 5 stays bound. -/
theorem start_in_bound_chat_any_sender_witness :
    webhook (fun _ _ => true)
      ⟨false, [⟨some 2, "u", "חלב", "מכולת", some 3⟩], some 1, some 5⟩
      (some ⟨some ⟨some 1, some "/start", some 7, none, none, none⟩, none⟩) =
      (⟨true, [], some 1, some 5⟩,
       [⟨some 1, "מישהו משהו מטירה?", none⟩], Resp.ok) :=
  start_in_bound_chat_any_sender (fun _ _ => true)
    ⟨false, [⟨some 2, "u", "חלב", "מכולת", some 3⟩], some 1, some 5⟩
    1 5 (some 7) none none none rfl rfl

/-- C10: a payload carrying only an `edited_message` is handled exactly as
the identical payload carried under `message`; in particular, editing an
already-classified order message while collecting appends fresh records
for its lines while the records created from the original message remain
in the ledger (shown on a concrete two-step run: the original `"חלב"`
record stays and the edited `"לחם"` line is appended as a new record). -/
theorem edited_message_handled_like_message :
    (∀ (deliver : Option Int → String → Bool) (st : BotState) (m : Msg),
      webhook deliver st (some ⟨none, some m⟩) =
        webhook deliver st (some ⟨some m, none⟩)) ∧
    (webhook (fun _ _ => true)
      ((webhook (fun _ _ => true) ⟨true, [], some 1, some 9⟩
        (some ⟨some ⟨some 1, some "חלב", some 2, some "dana", none, some 7⟩, none⟩)).1)
      (some ⟨none, some ⟨some 1, some "לחם", some 2, some "dana", none, some 7⟩⟩)).1.orders =
      [⟨some 2, "dana", "חלב", "מכולת", some 7⟩,
       ⟨some 2, "dana", "לחם", "מאפיה", some 7⟩] := by
  constructor
  · intro deliver st m
    rfl
  · decide

end TiraBot
